import Mathlib

/-!
Shallow embedding of the ai-voice-agent core: the MongoDB-backed transcript
persistence of `transcription_handler.py`, the session routes and bot wiring of
`server.py` and `bot.py`, the STT adapter of `stt.py`, the chunked synthesis of
`tts.py`, and the search tool of `mcp_server.py`. External backends (Mongo,
the vieneu TTS model, sherpa/whisper recognizers, Gemini) are opaque oracles
passed as function parameters; exceptional control flow is made explicit with
`Except` and an outcome parameter for each fallible backend call.
-/

namespace VoiceAgent

/-! ## transcription_handler.py: messages and the MongoDB-backed store -/

/-- pipecat `TranscriptionMessage` as handled by `TranscriptHandler`: a role
string, textual content, and an optional timestamp string (the `user_id`
field is neither saved nor restored by the handler and is not modelled). -/
structure TMessage where
  role : String
  content : String
  timestamp : Option String
  deriving Repr, DecidableEq

/-- One element of the `messages` array of a stored session document.
`save_messages` writes the keys role, content and timestamp for every message
(`TranscriptionMessage` always has the `timestamp` attribute, so the
`hasattr` fallback to an empty string is never taken). -/
structure StoredMsg where
  role : String
  content : String
  timestamp : Option String
  deriving Repr, DecidableEq

/-- A document of the `transcripts` collection: the `session_id` key plus the
full message array. The `updated_at` datetime written alongside is not
modelled (no claim mentions it). -/
structure SessionDoc where
  session_id : String
  messages : List StoredMsg
  deriving Repr, DecidableEq

/-- The `transcripts` collection. `session_id` is a unique index
(docker-db/setup_mongodb.py), modelled as a list of documents. -/
abbrev Store := List SessionDoc

/-- pymongo `PyMongoError`, the exception class caught by every
`TranscriptHandler` store operation (the spec calls it `StoreError`). -/
structure PyMongoError where
  msg : String
  deriving Repr, DecidableEq

/-- Whether the MongoDB call performed inside an operation succeeds or raises
`PyMongoError`; injected as an explicit parameter so that store failures are
part of the model. -/
inductive MongoOutcome where
  | ok
  | fail (e : PyMongoError)
  deriving Repr, DecidableEq

/-- Result of running a Python body guarded by `try/except PyMongoError`: the
value produced, the exception escaping to the caller (if any), and the
exceptions caught and logged. -/
structure PyResult (α : Type) where
  value : α
  raised : Option PyMongoError
  logged : List PyMongoError
  deriving Repr, DecidableEq

/-- The `try/except PyMongoError` wrapper used by `TranscriptHandler`: a body
that may raise, and a handler giving the value produced when it does. The
handler logs the error and does not re-raise. -/
def tryExceptPyMongo (body : Except PyMongoError α) (onCaught : PyMongoError → α) :
    PyResult α :=
  match body with
  | .ok a => ⟨a, none, []⟩
  | .error e => ⟨onCaught e, none, [e]⟩

/-- `collection.find_one` filtered on session_id: the first document whose
`session_id` equals `sid`, if any. -/
def find_one (store : Store) (sid : String) : Option SessionDoc :=
  store.find? (fun d => d.session_id == sid)

/-- Mongo `update_one` filtered on session_id with `upsert=True` and a full
document `$set`: replace the first matching document, or insert the document
if none matches. -/
def upsertDoc : Store → SessionDoc → Store
  | [], doc => [doc]
  | d :: ds, doc =>
      if d.session_id == doc.session_id then doc :: ds else d :: upsertDoc ds doc

/-- Mongo `delete_one` filtered on session_id: remove the first matching
document, if any. -/
def deleteDoc : Store → String → Store
  | [], _ => []
  | d :: ds, sid => if d.session_id == sid then ds else d :: deleteDoc ds sid

/-- `collection.update_one(..., upsert=True)`: the updated collection, or a
raised `PyMongoError` (collection unchanged). -/
def update_one (store : Store) (doc : SessionDoc) :
    MongoOutcome → Except PyMongoError Store
  | .ok => .ok (upsertDoc store doc)
  | .fail e => .error e

/-- `collection.delete_one(...)`: the updated collection, or a raised
`PyMongoError` (collection unchanged). -/
def delete_one (store : Store) (sid : String) :
    MongoOutcome → Except PyMongoError Store
  | .ok => .ok (deleteDoc store sid)
  | .fail e => .error e

/-- The serialization performed by `save_messages`: a dict with the message's
role, content and timestamp. -/
def serializeMsg (m : TMessage) : StoredMsg := ⟨m.role, m.content, m.timestamp⟩

/-- The reconstruction performed by `load_session`:
`TranscriptionMessage(role, content, timestamp)` from the stored keys. The
`.get` default for a missing timestamp key is never taken because
`save_messages` always writes the key. -/
def deserializeMsg (s : StoredMsg) : TMessage := ⟨s.role, s.content, s.timestamp⟩

/-- `TranscriptHandler.load_session`: find the session document; when present,
`self.messages` is replaced by the reconstructed list (`some`); when absent,
or when the Mongo call raises `PyMongoError` (caught and logged), the method
returns False and `self.messages` is left unchanged (`none`). -/
def load_session (store : Store) (sid : String) :
    MongoOutcome → Option (List TMessage)
  | .fail _ => none
  | .ok =>
      match find_one store sid with
      | some doc => some (doc.messages.map deserializeMsg)
      | none => none

/-- `TranscriptHandler.save_messages`: serialize `self.messages`, upsert the
session document keyed by `self.session_id`. A `PyMongoError` is caught and
logged, leaving the collection and `self.messages` as they were. The value
pairs the collection with `self.messages` after the call (the optional file
mirror is not modelled). -/
def save_messages (store : Store) (sid : String) (msgs : List TMessage)
    (outcome : MongoOutcome) : PyResult (Store × List TMessage) :=
  tryExceptPyMongo
    (do
      let s ← update_one store ⟨sid, msgs.map serializeMsg⟩ outcome
      pure (s, msgs))
    (fun _ => (store, msgs))

/-- `TranscriptHandler.on_transcript_update`: append every message of the
frame to `self.messages`, then auto-save via `save_messages`. There is no
dedup or idempotence check in the source. -/
def on_transcript_update (store : Store) (sid : String)
    (msgs frame : List TMessage) (outcome : MongoOutcome) :
    PyResult (Store × List TMessage) :=
  save_messages store sid (msgs ++ frame) outcome

/-- `TranscriptHandler.clear_session`: delete the session document, then clear
`self.messages`, both inside one `try/except PyMongoError`; if the delete
raises, `self.messages.clear()` is never reached and the error is only
logged. -/
def clear_session (store : Store) (sid : String) (msgs : List TMessage)
    (outcome : MongoOutcome) : PyResult (Store × List TMessage) :=
  tryExceptPyMongo
    (do
      let s ← delete_one store sid outcome
      pure (s, ([] : List TMessage)))
    (fun _ => (store, msgs))

/-! ## bot.py: per-connection pipeline construction -/

/-- A message of the initial LLM context (a role/content dict in the source). -/
structure CtxMsg where
  role : String
  content : String
  deriving Repr, DecidableEq

/-- The system prompt of bot.py (line 80). -/
def systemPrompt : String :=
  "Bạn là một trợ lý ảo Tiếng Việt chuyên tư vấn cho người dùng. Hãy làm theo những chỉ dẫn sau:\n1. Giới thiệu bản thân trong 15 từ.\n2. Luôn trả lời bằng tiếng Việt và câu trả lời phải bằng văn bản thuần. Không sử dụng kí tự đặc biệt, hay các con số mà phải chuyển đổi về dạng văn bản.\n"

/-- bot.py line 85: `TranscriptHandler(session_id = "testt")` — the handler is
constructed with the literal session id, and the `session_id` parameter that
`run_bot` received from the `/api/offer` route is not used. -/
def run_bot_handler_session_id (_session_id : Option String) : String := "testt"

/-- bot.py lines 77 to 95: the initial LLM context built by `run_bot` — the
system prompt, followed by the messages of the loaded session (role and
content only), where the loaded session is the one named by
`run_bot_handler_session_id`. An absent record leaves `self.messages` empty,
so nothing is merged. -/
def run_bot_initial_messages (store : Store) (session_id : Option String) :
    List CtxMsg :=
  let loaded := (load_session store (run_bot_handler_session_id session_id) .ok).getD []
  ⟨"system", systemPrompt⟩ :: loaded.map (fun m => ⟨m.role, m.content⟩)

/-- A store record under session id "abc", used as the failing input for the
session-identifier claim. -/
def abcSessionDoc : SessionDoc := ⟨"abc", [⟨"user", "câu hỏi cũ", some "t0"⟩]⟩

/-- A store record under the hardcoded id "testt". -/
def testtSessionDoc : SessionDoc :=
  ⟨"testt", [⟨"assistant", "nội dung testt", some "t1"⟩]⟩

/-! ## server.py: session routes -/

/-- Python-level exceptions surfacing from the embedded fragments, plus the
spec's `TranscriptionError` class (which the code never raises). -/
inductive PyExc where
  | unboundLocalError (name : String)
  | attributeError (name : String)
  | httpException (status : Nat) (detail : String)
  | transcriptionError (msg : String)
  deriving Repr, DecidableEq

/-- The attribute names defined on `TranscriptHandler` instances
(transcription_handler.py): the `__init__` fields and the methods of the
class. There is no `get_chat_history`. -/
def transcriptHandlerAttrs : List String :=
  ["messages", "output_file", "session_id", "mongo_client", "db", "collection",
   "get_messages", "load_session", "save_messages", "_save_to_file",
   "on_transcript_update", "get_context", "clear_session", "close"]

/-- Python attribute lookup on a `TranscriptHandler` instance: names not
defined by the class raise `AttributeError`. -/
def handlerGetattr (name : String) : Except PyExc Unit :=
  if transcriptHandlerAttrs.contains name then .ok () else .error (.attributeError name)

/-- server.py `load_chat_session` (GET /api/chat-sessions/...): returns the
empty list for the literal id "new"; otherwise evaluates
`transcript_handler.get_chat_history(session_id)`, which first resolves the
attribute `get_chat_history` — raising `AttributeError` since
`TranscriptHandler` defines no such attribute. The remainder of the route
(404 when the result is falsy, else the session) is modelled with the
missing method abstracted as `getChatHistory`; it is unreachable. -/
def load_chat_session (getChatHistory : String → List StoredMsg) (sid : String) :
    Except PyExc (List StoredMsg) :=
  if sid == "new" then .ok []
  else
    match handlerGetattr "get_chat_history" with
    | .error e => .error e
    | .ok _ =>
        let session := getChatHistory sid
        if session.isEmpty then
          .error (.httpException 404 ("Chat session " ++ sid ++ " not found"))
        else .ok session

/-! ## stt.py: the speech-to-text adapter -/

/-- `OpenAISTTService.__init__` (stt.py): `self.recognizer` is assigned only
when the model name is "zipformer" (sherpa-onnx transducer) or
"whisper-large-v3" (faster-whisper); any other model name leaves the
attribute unbound. -/
def stt_init_recognizer_bound (model : String) : Bool :=
  model == "zipformer" || model == "whisper-large-v3"

/-- `OpenAISTTService._transcribe` followed by `_run_recognition` (stt.py).
The locals `samples` and `sr` of `_transcribe` are assigned only by its two
`if` statements, which test the model name against "zipformer" and against
"whisper-v3-large" (note the transposed name); any other model name reaches
`self._run_recognition(samples, sr)` with `samples` unbound, raising
`UnboundLocalError`. `_run_recognition` returns recognized text for
"zipformer" and "whisper-large-v3" and falls off the end (returns None) for
every other name, making the subsequent `text.lower()` raise
`AttributeError`. The sherpa decode of the wave-parsed samples and the
faster-whisper decode are opaque oracles `zipDecode` and `whisperDecode`;
audio is a finite byte buffer. -/
def stt_transcribe (zipDecode whisperDecode : List Nat → String)
    (model_name : String) (audio : List Nat) : Except PyExc String :=
  let samples : Option (List Nat) :=
    if model_name == "zipformer" then some audio
    else if model_name == "whisper-v3-large" then some audio
    else none
  match samples with
  | none => .error (.unboundLocalError "samples")
  | some s =>
      let text : Option String :=
        if model_name == "zipformer" then some (zipDecode s)
        else if model_name == "whisper-large-v3" then some (whisperDecode s)
        else none
      match text with
      | some t => .ok t.toLower
      | none => .error (.attributeError "lower")

/-! ## tts.py: chunked synthesis -/

/-- Left-to-right segmentation of a list into consecutive runs of at most `fs`
elements, in order: the loop `for i in range(0, len(wav), frame_size)` over
slices `wav[i:i+frame_size]`. (`fs = 0` cannot occur at the call sites, which
pass 50000 and 256.) -/
def chunkBy {α : Type} (fs : Nat) : List α → List (List α)
  | [] => []
  | x :: xs => (x :: xs.take (fs - 1)) :: chunkBy fs (xs.drop (fs - 1))
termination_by l => l.length
decreasing_by simp; omega

/-- `np.pad(frame, (0, frame_size - len(frame)))`: append zero samples up to
the frame size. -/
def padTo (fs : Nat) (l : List Int) : List Int := l ++ List.replicate (fs - l.length) 0

/-- Modelled from the spec: `split_text_into_chunks` lives in `utils.py`,
which is not part of this repository snapshot; spec 4.5 says the input text
is split into bounded-length segments (a few hundred characters). Modelled as
left-to-right segmentation into maximal runs of `maxChars` characters, with
the empty text yielding no segments. -/
def split_text_into_chunks (text : String) (maxChars : Nat) : List String :=
  (chunkBy maxChars text.toList).map (fun cs => String.mk cs)

/-- tts.py `infer_stream_custom`: split the text into segments of at most 256
characters; synthesize each segment with the vieneu backend (the opaque
oracle `infer`); skip a segment whose waveform is empty (the `None`/empty
guard); cut each waveform into frames of `frame_size` samples, zero-padding
the final partial frame; yield the frames in order. The pointwise
float32-to-PCM16 clip/scale conversion is abstracted to the identity on the
integer samples: it maps the padding zeros to zero and neither inserts, drops
nor reorders samples. -/
def infer_stream_custom (infer : String → List Int) (text : String)
    (frame_size : Nat) : List (List Int) :=
  (split_text_into_chunks text 256).flatMap (fun chunk_text =>
    let wav := infer chunk_text
    if wav.length = 0 then []
    else (chunkBy frame_size wav).map (padTo frame_size))

/-- tts.py `OpenAITTSService.run_tts`: the audio frames yielded for a text are
exactly those of `infer_stream_custom` with `frame_size = 50000` (each
wrapped in a `TTSAudioRawFrame`, not modelled). -/
def run_tts (infer : String → List Int) (text : String) : List (List Int) :=
  infer_stream_custom infer text 50000

/-- The single contiguous waveform for a text: each segment's synthesized
audio concatenated in order with nothing in between. This is the
specification-side notion the emitted frames are claimed to reconstruct. -/
def contiguous_waveform (infer : String → List Int) (text : String) : List Int :=
  (split_text_into_chunks text 256).flatMap infer

/-! ## mcp_server.py: the search tool -/

/-- The constant assigned to the local `query` inside `gemini_search`
(mcp_server.py line 153), overwriting the caller-supplied argument before the
`generate_content` call. -/
def geminiFixedQuery : String :=
  "Trường đại học công nghệ đại học quốc gia hà nội có hiệu trưởng là ai"

/-- The `contents` string `gemini_search` submits to the Gemini backend for a
caller-supplied query: the local `query` is reassigned to `geminiFixedQuery`
first, and `contents` is the interpolation of the reassigned local. -/
def gemini_search_contents (query : String) : String :=
  let query := geminiFixedQuery
  query

/-- mcp_server.py `gemini_search`: submit the contents to the Gemini backend
(an opaque oracle from contents to the response's part texts) and join the
part texts into the returned result. -/
def gemini_search (backend : String → List String) (query : String) : String :=
  String.join (backend (gemini_search_contents query))

/-! ## Two-phase tool round-trip (spec-modelled) -/

/-- A tool descriptor: the tool's name and, when the spoken-filler policy
applies, the filler phrase (bot_fast_api.py configures the MCP client's tools
dict with a `text_content` filler phrase and `run_llm = True` for the search
tool). -/
structure ToolDescriptor where
  name : String
  fillerText : Option String
  deriving Repr, DecidableEq

/-- The filler phrase registered in bot_fast_api.py (lines 85 to 90). -/
def fillerPhraseVN : String :=
  "Tôi đang thực hiện tìm kiếm thông tin, vui lòng chờ trong giây lát..."

/-- The search tool descriptor configured by bot_fast_api.py. -/
def searchToolDescriptor : ToolDescriptor := ⟨"google_search", some fillerPhraseVN⟩

/-- Observable events of one tool-calling turn, in pipeline order. -/
inductive TurnEvent where
  | fillerSynthesized (phrase : String)
  | toolInvoked (name : String) (args : String)
  | toolResultConsumed (result : String)
  | assistantPersisted (content : String)
  deriving Repr, DecidableEq

/-- Modelled from the spec: the `MCPClient` tool round-trip lives in
`mcp_service.py`, which is not part of this repository snapshot. Spec 4.2:
when the descriptor carries the spoken-filler flag, invocation is preceded by
fully synthesizing the filler phrase (phase 1); the tool is then invoked and
its textual result is fed back into the LLM as a follow-up turn (phase 2),
whose final answer is the assistant message appended to history and
persisted. Without the flag the result feeds back silently. `tool` is the
opaque external call and `finalAnswer` the opaque phase-2 LLM completion. -/
def tool_round_trip (d : ToolDescriptor) (args : String) (tool : String → String)
    (finalAnswer : String → String) : List TurnEvent :=
  match d.fillerText with
  | some phrase =>
      [.fillerSynthesized phrase, .toolInvoked d.name args,
       .toolResultConsumed (tool args), .assistantPersisted (finalAnswer (tool args))]
  | none =>
      [.toolInvoked d.name args, .toolResultConsumed (tool args),
       .assistantPersisted (finalAnswer (tool args))]

/-- The content of the last assistant message persisted in a turn trace. -/
def persistedAssistant (trace : List TurnEvent) : Option String :=
  trace.reverse.findSome? (fun ev =>
    match ev with
    | .assistantPersisted c => some c
    | _ => none)

/-- A concrete transcript message used by closed counterexamples. -/
def m0 : TMessage := ⟨"user", "xin chào", some "2024-01-01T00:00:00"⟩

/-! ## Helper lemmas -/

theorem deserialize_serialize (m : TMessage) : deserializeMsg (serializeMsg m) = m := rfl

theorem map_deserialize_serialize (msgs : List TMessage) :
    (msgs.map serializeMsg).map deserializeMsg = msgs := by
  induction msgs with
  | nil => rfl
  | cons m ms ih => simp [ih, deserialize_serialize]

theorem find_one_upsertDoc (store : Store) (doc : SessionDoc) :
    find_one (upsertDoc store doc) doc.session_id = some doc := by
  induction store with
  | nil => simp [find_one, upsertDoc]
  | cons d ds ih =>
    by_cases h : d.session_id == doc.session_id
    · simp [upsertDoc, find_one, h]
    · simp only [upsertDoc, h, Bool.false_eq_true, if_false]
      simpa [find_one, h] using ih

theorem chunkBy_nil {α : Type} (fs : Nat) : chunkBy (α := α) fs [] = [] := by
  simp [chunkBy]

/-! ## C2: save followed by load round-trips -/

/-- C2: for every collection state, session identifier and message list,
`save_messages` (succeeding) followed by `load_session` on the same
identifier loads exactly the saved list: same length, order, roles, contents
and timestamps. In particular a session with an existing record and no new
turns reloads exactly what was last saved. -/
theorem save_then_load_roundtrip (store : Store) (sid : String) (msgs : List TMessage) :
    load_session (save_messages store sid msgs .ok).value.1 sid .ok = some msgs := by
  have hsave : (save_messages store sid msgs .ok).value.1
      = upsertDoc store ⟨sid, msgs.map serializeMsg⟩ := rfl
  rw [hsave, load_session]
  have hfind := find_one_upsertDoc store ⟨sid, msgs.map serializeMsg⟩
  rw [show (⟨sid, msgs.map serializeMsg⟩ : SessionDoc).session_id = sid from rfl] at hfind
  rw [hfind]
  simp [map_deserialize_serialize, Function.comp_def, deserialize_serialize]

/-! ## C6: a store failure during save is non-fatal -/

/-- C6: when the Mongo upsert raises `PyMongoError` (the spec's StoreError)
inside `save_messages`, the call returns normally (no exception reaches the
caller), the in-memory message list is unchanged, the collection is
unchanged, and the error is logged. -/
theorem save_messages_storeerror_nonfatal (store : Store) (sid : String)
    (msgs : List TMessage) (e : PyMongoError) :
    (save_messages store sid msgs (.fail e)).raised = none ∧
    (save_messages store sid msgs (.fail e)).value.2 = msgs ∧
    (save_messages store sid msgs (.fail e)).value.1 = store ∧
    (save_messages store sid msgs (.fail e)).logged = [e] :=
  ⟨rfl, rfl, rfl, rfl⟩

/-! ## C10: clear_session leaves memory unchanged on store failure -/

/-- C10: `clear_session` clears the in-memory message list only after the
store delete succeeds: when `delete_one` raises `PyMongoError`, the in-memory
list and the collection are unchanged and no exception reaches the caller
(the error is logged); when the delete succeeds, the list is cleared. -/
theorem clear_session_atomic (store : Store) (sid : String)
    (msgs : List TMessage) (e : PyMongoError) :
    (clear_session store sid msgs (.fail e)).value.2 = msgs ∧
    (clear_session store sid msgs (.fail e)).value.1 = store ∧
    (clear_session store sid msgs (.fail e)).raised = none ∧
    (clear_session store sid msgs (.fail e)).logged = [e] ∧
    (clear_session store sid msgs .ok).value.2 = [] ∧
    (clear_session store sid msgs .ok).value.1 = deleteDoc store sid :=
  ⟨rfl, rfl, rfl, rfl, rfl, rfl⟩

/-! ## C5: duplicate flush is not idempotent (corrected) -/

/-- C5 counterexample: delivering the same transcript-update event (one new
message `m0`) twice to `on_transcript_update` does not leave the message list
unchanged — the second delivery appends a duplicate, refuting the claimed
idempotence at this concrete input. -/
theorem on_transcript_update_second_flush_cex :
    (on_transcript_update
        (on_transcript_update [] "s1" [] [m0] .ok).value.1 "s1"
        (on_transcript_update [] "s1" [] [m0] .ok).value.2 [m0] .ok).value.2
      ≠ (on_transcript_update [] "s1" [] [m0] .ok).value.2 := by
  decide

/-- C5 (amended): `on_transcript_update` is not idempotent — every delivery of
a transcript-update event carrying the message list `frame` appends `frame`
to the in-memory list again, so a first delivery yields `msgs ++ frame` and a
duplicate second delivery yields `msgs ++ frame ++ frame`. -/
theorem on_transcript_update_appends (store store2 : Store) (sid : String)
    (msgs frame : List TMessage) (o1 o2 : MongoOutcome) :
    (on_transcript_update store sid msgs frame o1).value.2 = msgs ++ frame ∧
    (on_transcript_update store2 sid
        ((on_transcript_update store sid msgs frame o1).value.2) frame o2).value.2
      = msgs ++ frame ++ frame := by
  have h : ∀ (s : Store) (ms : List TMessage) (o : MongoOutcome),
      (on_transcript_update s sid ms frame o).value.2 = ms ++ frame := by
    intro s ms o
    cases o <;> rfl
  exact ⟨h store msgs o1, by rw [h, h]⟩

/-! ## C1: the supplied session identifier is ignored (code bug) -/

/-- C1: evaluation at the failing input. A connection supplying session
identifier "abc" with an existing store record for "abc" gets a pipeline
whose handler session is the literal "testt": nothing of the "abc" record is
merged into the initial context (second conjunct), and if a "testt" record
exists its messages are merged instead (third conjunct). -/
theorem run_bot_ignores_supplied_session :
    run_bot_handler_session_id (some "abc") = "testt" ∧
    run_bot_initial_messages [abcSessionDoc] (some "abc")
      = [⟨"system", systemPrompt⟩] ∧
    run_bot_initial_messages [abcSessionDoc, testtSessionDoc] (some "abc")
      = [⟨"system", systemPrompt⟩, ⟨"assistant", "nội dung testt"⟩] :=
  ⟨rfl, rfl, rfl⟩

/-! ## C7: the search tool ignores the caller's query (code bug) -/

/-- C7: evaluation at the failing input. The contents `gemini_search` submits
to the Gemini backend is the hardcoded constant for every caller-supplied
query — in particular it is not the query "thời tiết hôm nay ở Hà Nội" when
that query is passed — and consequently the tool's result does not depend on
the caller's query at all. -/
theorem gemini_search_ignores_query (backend : String → List String)
    (q1 q2 : String) :
    gemini_search_contents q1 = geminiFixedQuery ∧
    gemini_search_contents "thời tiết hôm nay ở Hà Nội" ≠ "thời tiết hôm nay ở Hà Nội" ∧
    gemini_search backend q1 = gemini_search backend q2 :=
  ⟨rfl, by decide, rfl⟩

/-! ## C8: transcription with model "whisper-large-v3" hits an unbound local (code bug) -/

/-- C8: evaluation at the failing input. For the constructor-accepted model
name "whisper-large-v3", `_transcribe` raises `UnboundLocalError` on the
local `samples` for every audio buffer — because its second `if` tests the
transposed name "whisper-v3-large" — instead of returning a transcription or
failing with the spec's TranscriptionError; the "zipformer" path returns the
recognized text. -/
theorem stt_transcribe_whisper_unbound (zipDecode whisperDecode : List Nat → String)
    (audio : List Nat) :
    stt_transcribe zipDecode whisperDecode "whisper-large-v3" audio
      = .error (.unboundLocalError "samples") ∧
    stt_init_recognizer_bound "whisper-large-v3" = true ∧
    stt_transcribe zipDecode whisperDecode "zipformer" audio
      = .ok (zipDecode audio).toLower :=
  ⟨rfl, rfl, rfl⟩

/-! ## C9: the session route raises AttributeError (code bug) -/

/-- C9: evaluation at the failing input. For every session identifier other
than the literal "new", the GET chat-session route neither returns the stored
message list nor responds 404: it raises `AttributeError` because
`TranscriptHandler` defines no `get_chat_history` method. -/
theorem load_chat_session_attribute_error (getChatHistory : String → List StoredMsg)
    (sid : String) (h : sid ≠ "new") :
    load_chat_session getChatHistory sid
      = .error (.attributeError "get_chat_history") := by
  have hb : (sid == "new") = false := by
    simp [h]
  have hga : handlerGetattr "get_chat_history"
      = Except.error (PyExc.attributeError "get_chat_history") := rfl
  simp [load_chat_session, hb, hga]

/-- C9 witness: the route applied to the concrete identifier "abc". -/
theorem load_chat_session_attribute_error_witness :
    load_chat_session (fun _ => []) "abc"
      = .error (.attributeError "get_chat_history") :=
  load_chat_session_attribute_error (fun _ => []) "abc" (by decide)

/-! ## C3: two-phase tool round-trip with spoken filler (spec-modelled) -/

/-- C3: for a turn resolved into exactly one tool call whose descriptor
carries the spoken-filler flag, the filler phrase is fully synthesized
strictly before the tool's result is consumed (the synthesis event occurs at
an earlier trace position), and the assistant message finally persisted is
the phase-2 answer derived from the tool's returned text — the same content
for every filler phrase, hence not derived from the filler. -/
theorem tool_round_trip_filler_order (d : ToolDescriptor) (args : String)
    (tool finalAnswer : String → String) (phrase : String)
    (h : d.fillerText = some phrase) :
    (∃ i j, i < j ∧
      (tool_round_trip d args tool finalAnswer).get? i
        = some (.fillerSynthesized phrase) ∧
      (tool_round_trip d args tool finalAnswer).get? j
        = some (.toolResultConsumed (tool args))) ∧
    persistedAssistant (tool_round_trip d args tool finalAnswer)
      = some (finalAnswer (tool args)) ∧
    (∀ phrase2 : String,
      persistedAssistant (tool_round_trip ⟨d.name, some phrase2⟩ args tool finalAnswer)
        = some (finalAnswer (tool args))) := by
  obtain ⟨nm, ft⟩ := d
  cases h
  refine ⟨⟨0, 2, by omega, rfl, rfl⟩, rfl, fun phrase2 => rfl⟩

/-- C3 witness: the two-phase turn at the concrete search descriptor
configured in bot_fast_api.py, with query "X", a tool returning "T" and a
phase-2 answer derived from it. -/
theorem tool_round_trip_filler_order_witness :
    (∃ i j, i < j ∧
      (tool_round_trip searchToolDescriptor "X" (fun _ => "T")
          (fun t => String.append "đáp án " t)).get? i
        = some (.fillerSynthesized fillerPhraseVN) ∧
      (tool_round_trip searchToolDescriptor "X" (fun _ => "T")
          (fun t => String.append "đáp án " t)).get? j
        = some (.toolResultConsumed ((fun _ => "T") "X"))) ∧
    persistedAssistant (tool_round_trip searchToolDescriptor "X" (fun _ => "T")
        (fun t => String.append "đáp án " t))
      = some ((fun t => String.append "đáp án " t) ((fun _ => "T") "X")) ∧
    (∀ phrase2 : String,
      persistedAssistant (tool_round_trip ⟨searchToolDescriptor.name, some phrase2⟩
          "X" (fun _ => "T") (fun t => String.append "đáp án " t))
        = some ((fun t => String.append "đáp án " t) ((fun _ => "T") "X"))) :=
  tool_round_trip_filler_order searchToolDescriptor "X" (fun _ => "T")
    (fun t => String.append "đáp án " t) fillerPhraseVN rfl

/-! ## C4: frame concatenation and segment padding -/

theorem join_map_padTo (fs : Nat) (hfs : 0 < fs) (w : List Int) :
    ((chunkBy fs w).map (padTo fs)).flatten
      = w ++ List.replicate ((fs - w.length % fs) % fs) 0 := by
  induction w using chunkBy.induct fs with
  | case1 => simp [chunkBy, Nat.mod_self]
  | case2 x xs ih =>
    rw [chunkBy]
    rcases Nat.lt_or_ge (xs.length) (fs - 1) with hlt | hge
    · rw [List.take_of_length_le (Nat.le_of_lt hlt), List.drop_of_length_le (Nat.le_of_lt hlt)]
      simp only [chunkBy, List.map_nil, List.map_cons, List.flatten_cons, List.flatten_nil,
        List.append_nil, padTo]
      have hlen : (x :: xs).length < fs := by simp; omega
      have h1 : (x :: xs).length % fs = (x :: xs).length := Nat.mod_eq_of_lt hlen
      have h2 : (fs - (x :: xs).length) % fs = fs - (x :: xs).length := by
        refine Nat.mod_eq_of_lt ?_
        simp at hlen ⊢
        omega
      rw [h1, h2]
    · rw [List.map_cons, List.flatten_cons, ih]
      have hpadlen : (x :: xs.take (fs - 1)).length = fs := by
        simp [Nat.min_eq_left hge]
        omega
      have hpad : padTo fs (x :: xs.take (fs - 1)) = x :: xs.take (fs - 1) := by
        simp [padTo, hpadlen]
      rw [hpad]
      have hdroplen : (xs.drop (fs - 1)).length = (x :: xs).length - fs := by
        simp
        omega
      have hmod : (x :: xs).length % fs = (xs.drop (fs - 1)).length % fs := by
        rw [hdroplen]
        have : fs ≤ (x :: xs).length := by simp; omega
        rw [Nat.mod_eq_sub_mod this]
      rw [← hmod]
      simp only [List.cons_append, ← List.append_assoc, List.take_append_drop]

theorem length_flatMap_pair {β : Type} (c1 c2 : β) (K : List Int) :
    (([c1, c2]).flatMap (fun _ => K)).length = 2 * K.length := by
  simp [List.flatMap_cons]
  omega

theorem flatten_stream_chunks (infer : String → List Int) (fs : Nat) (hfs : 0 < fs)
    (l : List String) :
    (l.flatMap (fun c =>
        let wav := infer c
        if wav.length = 0 then [] else (chunkBy fs wav).map (padTo fs))).flatten
      = l.flatMap (fun c =>
          infer c ++ List.replicate ((fs - (infer c).length % fs) % fs) 0) := by
  induction l with
  | nil => rfl
  | cons c cs ih =>
    simp only [List.flatMap_cons, List.flatten_append, ih]
    congr 1
    by_cases h : (infer c).length = 0
    · have hc : infer c = [] := List.length_eq_zero.mp h
      simp [h, hc, Nat.mod_self]
    · simp only [if_neg h]
      exact join_map_padTo fs hfs (infer c)

theorem flatten_infer_stream (infer : String → List Int) (text : String) (fs : Nat)
    (hfs : 0 < fs) :
    (infer_stream_custom infer text fs).flatten
      = (split_text_into_chunks text 256).flatMap
          (fun c => infer c ++ List.replicate ((fs - (infer c).length % fs) % fs) 0) :=
  flatten_stream_chunks infer fs hfs (split_text_into_chunks text 256)

/-- C4 (amended): the frames `run_tts` emits, concatenated in emission order,
reconstruct each segment's waveform in segment order, except that zero
padding is appended after each segment up to a multiple of the frame size
50000 (the final partial frame of each segment is zero-padded); a zero-length
input text yields zero frames. The concatenation therefore equals the single
contiguous waveform exactly when every segment's waveform length is a
multiple of the frame size, and otherwise contains inserted padding. -/
theorem run_tts_padded_reconstruction (infer : String → List Int) (text : String) :
    (run_tts infer text).flatten
      = (split_text_into_chunks text 256).flatMap
          (fun c => infer c ++ List.replicate ((50000 - (infer c).length % 50000) % 50000) 0)
    ∧ run_tts infer "" = [] := by
  constructor
  · exact flatten_infer_stream infer text 50000 (by norm_num)
  · show infer_stream_custom infer "" 50000 = []
    have htl : "".toList = ([] : List Char) := rfl
    simp [infer_stream_custom, split_text_into_chunks, htl, chunkBy]

/-- C4 counterexample: with the synthesis backend producing a one-sample
waveform per segment and a 257-character input text (two segments), the
concatenation of the emitted frames is not the contiguous waveform: 49999
zero padding samples separate the first segment's sample from the second
segment's, refuting the no-gaps claim at this concrete input. -/
theorem run_tts_gap_counterexample :
    (run_tts (fun _ => [1]) (String.mk (List.replicate 257 'a'))).flatten
      ≠ contiguous_waveform (fun _ => [1]) (String.mk (List.replicate 257 'a')) := by
  have e2 : (List.replicate 256 'a').take 255 = List.replicate 255 'a' := by
    rw [List.take_replicate, Nat.min_eq_left (by norm_num)]
  have e3 : (List.replicate 256 'a').drop 255 = List.replicate 1 'a' := by
    rw [List.drop_replicate]
  have h1 : chunkBy 256 (List.replicate 257 'a')
      = ('a' :: List.replicate 255 'a') :: [['a']] := by
    rw [show (257 : Nat) = 256 + 1 from rfl, List.replicate_succ]
    rw [chunkBy]
    rw [show (256 : Nat) - 1 = 255 from rfl, e2, e3]
    rw [List.replicate_one]
    rw [chunkBy]
    rw [show (256 : Nat) - 1 = 255 from rfl]
    rw [List.take_nil, List.drop_nil, chunkBy_nil]
  have hsplit : split_text_into_chunks (String.mk (List.replicate 257 'a')) 256
      = [String.mk ('a' :: List.replicate 255 'a'), String.mk ['a']] := by
    unfold split_text_into_chunks
    rw [show (String.mk (List.replicate 257 'a')).toList = List.replicate 257 'a' from rfl]
    rw [h1]
    rfl
  intro h
  have hlen := congrArg List.length h
  simp only [run_tts, contiguous_waveform] at hlen
  rw [flatten_infer_stream (fun _ => [1]) (String.mk (List.replicate 257 'a')) 50000
      (by norm_num), hsplit] at hlen
  rw [length_flatMap_pair, length_flatMap_pair] at hlen
  rw [List.length_append, List.length_replicate] at hlen
  have hK : ([1] : List Int).length = 1 := rfl
  rw [hK] at hlen
  omega

end VoiceAgent
